import Mathlib

/-!
# Verification of the mDNS discovery engine (`brewblox_mdns.dns_discovery`)

A shallow embedding of the discovery module. Python strings are embedded as
`List Char` (the relevant identifiers are ASCII, where Python `str.lower`
agrees with the character-wise `Char.toLower`). The asynchronous queue of
resolved service infos is embedded as a finite list of timed fetch events:
each "instance added" event either resolved to a `ServiceInfo` (which the
fire-and-forget `add_service` task put on the queue) or its info fetch failed
(the task died without queueing anything). The generator `_discover` is
embedded twice: `sessionYields` gives the records it yields over a sequence of
dequeued infos, and `sessionTrace` gives its full event trace (yields followed
by the `finally`-guaranteed close of the Zeroconf subscription), parameterised
by the point at which consumption is interrupted (consumer abandonment,
timeout cancellation, or an exception).
-/

namespace BrewbloxMdns

/-- Python strings, embedded character-wise. -/
abbrev Str := List Char

/-- Python `str.lower()` (character-wise; exact for the ASCII names used here). -/
def lower (s : Str) : Str := s.map Char.toLower

/-- Python `s[:-n]`: drop the last `n` characters (empty result when `n ≥ len`). -/
def pyDropRight (s : Str) (n : Nat) : Str := s.take (s.length - n)

/-- The fixed domain suffix `'.local.'` (7 characters). -/
def localSuffix : Str := ".local.".data

/-- A packed IPv4 address (the four bytes of `info.address`). -/
structure IPv4 where
  b0 : Nat
  b1 : Nat
  b2 : Nat
  b3 : Nat
deriving DecidableEq, Repr

/-- `socket.inet_ntoa`: dotted-decimal rendering of a packed IPv4 address. -/
def inet_ntoa (a : IPv4) : Str :=
  Nat.toDigits 10 a.b0 ++ '.' :: Nat.toDigits 10 a.b1
    ++ '.' :: Nat.toDigits 10 a.b2 ++ '.' :: Nat.toDigits 10 a.b3

/-- The placeholder address string `'0.0.0.0'` discarded by `_discover`. -/
def zeroAddr : Str := "0.0.0.0".data

/-- A resolved service info, as returned by `conf.get_service_info`. -/
structure ServiceInfo where
  address : IPv4
  port : Nat
  server : Str
  name : Str
deriving DecidableEq, Repr

/-- The record `(addr, port, serial)` yielded by `_discover`. -/
structure ServiceRecord where
  addr : Str
  port : Nat
  serial : Str
deriving DecidableEq, Repr

/-- `info.server[:-len('.local.')]`: the serial yielded for a matching info. -/
def serialOf (info : ServiceInfo) : Str := pyDropRight info.server 7

/-- `match = f'{id}.local.'.lower() if id else None` — the filter string
computed by `_discover` (`id` may be Python `None` or a possibly empty str). -/
def matchOf (id : Option Str) : Option Str :=
  match id with
  | none => none
  | some s => if s = [] then none else some (lower (s ++ localSuffix))

/-- The body of `_discover`'s loop for one dequeued info: `none` when the
record is discarded (placeholder address, or identity mismatch), `some`
the yielded record otherwise. -/
def dequeueDecision (m : Option Str) (info : ServiceInfo) : Option ServiceRecord :=
  let addr := inet_ntoa info.address
  if addr = zeroAddr then
    none
  else
    match m with
    | none => some ⟨addr, info.port, serialOf info⟩
    | some p => if lower info.server = p then some ⟨addr, info.port, serialOf info⟩ else none

/-- The records `_discover` yields over a sequence of dequeued infos;
in `single` mode the loop returns right after the first yield. -/
def sessionYields (m : Option Str) (single : Bool) : List ServiceInfo → List ServiceRecord
  | [] => []
  | info :: rest =>
    match dequeueDecision m info with
    | none => sessionYields m single rest
    | some r => r :: (if single then [] else sessionYields m single rest)

/-- An observable event of a discovery session: a yielded record, or the
release of the Zeroconf subscription (`await conf.close()`). -/
inductive SEvent where
  | yielded (r : ServiceRecord)
  | closed
deriving DecidableEq, Repr

/-- The events of the `try` block of `_discover`: at most `fuel` dequeues
happen before the consumer abandons the generator (cancellation by a timeout,
an exception, or simply stopping); the loop also parks forever once the queue
is drained, and in `single` mode it returns after the first yield. -/
def tryEvents (m : Option Str) (single : Bool) : List ServiceInfo → Nat → List SEvent
  | _, 0 => []
  | [], _ => []
  | info :: rest, Nat.succ fuel =>
    match dequeueDecision m info with
    | none => tryEvents m single rest fuel
    | some r => SEvent.yielded r :: (if single then [] else tryEvents m single rest fuel)

/-- The full trace of `_discover`: whatever the `try` block did, the
`finally` block closes the subscription on the way out. -/
def sessionTrace (m : Option Str) (single : Bool) (infos : List ServiceInfo) (fuel : Nat) :
    List SEvent :=
  tryEvents m single infos fuel ++ [SEvent.closed]

/-- One "instance added" event: the time at which its resolution task
completed, and the fetched info (`none` when the fetch failed, in which case
`add_service` died before `queue.put` and nothing was queued). -/
structure TimedEvent where
  time : Nat
  fetch : Option ServiceInfo
deriving DecidableEq, Repr

/-- The events whose resolution completes strictly before the deadline
(`none` = no timeout: every event). -/
def beforeDeadline (deadline : Option Nat) (events : List TimedEvent) : List TimedEvent :=
  match deadline with
  | none => events
  | some tmax => events.filter (fun e => e.time < tmax)

/-- The service infos that reach the session's queue: successful fetches only. -/
def queuedInfos (events : List TimedEvent) : List ServiceInfo :=
  events.filterMap TimedEvent.fetch

/-- The infos dequeued before an optional deadline. -/
def availInfos (deadline : Option Nat) (events : List TimedEvent) : List ServiceInfo :=
  queuedInfos (beforeDeadline deadline events)

/-- Outcome of `discover_all` (an async generator consumed to its end):
either it finishes normally with its yielded records, or an error escapes. -/
inductive AllOutcome where
  | done (records : List ServiceRecord)
  | raised (records : List ServiceRecord)
deriving DecidableEq, Repr

/-- The `async with timeout(timeout_v)` body of `discover_all`: the inner
all-mode `_discover` never returns on a finite event sequence (it parks on
`queue.get()` once the queue drains), so the deadline always fires and a
`TimeoutError` is raised after the pre-deadline records were yielded. -/
def discover_all_body (id : Option Str) (dns_type : Str) (timeout_v : Nat)
    (events : List TimedEvent) : AllOutcome :=
  AllOutcome.raised (sessionYields (matchOf id) false (availInfos (some timeout_v) events))

/-- `with suppress(asyncio.TimeoutError)`: a raised `TimeoutError` is
swallowed and the generator simply ends with the records already yielded. -/
def suppressTimeout : AllOutcome → AllOutcome
  | AllOutcome.done rs => AllOutcome.done rs
  | AllOutcome.raised rs => AllOutcome.done rs

/-- `discover_all(id, dns_type, timeout_v)`, consumed to its end. -/
def discover_all (id : Option Str) (dns_type : Str) (timeout_v : Nat)
    (events : List TimedEvent) : AllOutcome :=
  suppressTimeout (discover_all_body id dns_type timeout_v events)

/-- Outcome of `discover_one`: the first matching record, a `TimeoutError`
propagated to the caller, or no completion at all (parked forever). -/
inductive OneOutcome where
  | ok (r : ServiceRecord)
  | timedOut
  | never
deriving DecidableEq, Repr

/-- `discover_one(id, dns_type, timeout_v)`: single-mode `_discover` under
`async with timeout(timeout_v)` with no suppression. If a match is dequeued
before the deadline it is returned; otherwise the deadline (when there is
one) fires and `TimeoutError` propagates, and with no timeout the call
waits on `queue.get()` forever. -/
def discover_one (id : Option Str) (dns_type : Str) (timeout_v : Option Nat)
    (events : List TimedEvent) : OneOutcome :=
  match (sessionYields (matchOf id) true (availInfos timeout_v events)).head? with
  | some r => OneOutcome.ok r
  | none =>
    match timeout_v with
    | some _ => OneOutcome.timedOut
    | none => OneOutcome.never

/-! ## Helper lemmas -/

theorem lower_append (s t : Str) : lower (s ++ t) = lower s ++ lower t :=
  List.map_append ..

theorem lower_localSuffix : lower localSuffix = localSuffix := by decide

theorem localSuffix_length : localSuffix.length = 7 := by decide

theorem pyDropRight_append (pre t : Str) (h : t.length = 7) :
    pyDropRight (pre ++ t) 7 = pre := by
  rw [pyDropRight, List.length_append, h, Nat.add_sub_cancel, List.take_left]

theorem lower_serialOf (info : ServiceInfo) :
    lower (serialOf info) = pyDropRight (lower info.server) 7 := by
  rw [serialOf, pyDropRight, pyDropRight, lower, lower, List.map_take, List.length_map]

theorem dequeueDecision_eq_some {m : Option Str} {info : ServiceInfo} {r : ServiceRecord}
    (h : dequeueDecision m info = some r) :
    r = ⟨inet_ntoa info.address, info.port, serialOf info⟩
      ∧ inet_ntoa info.address ≠ zeroAddr := by
  by_cases hz : inet_ntoa info.address = zeroAddr
  · simp [dequeueDecision, hz] at h
  · refine ⟨?_, hz⟩
    cases m with
    | none => simp [dequeueDecision, hz] at h; exact h.symm
    | some p =>
      by_cases hp : lower info.server = p
      · simp [dequeueDecision, hz, hp] at h; exact h.symm
      · simp [dequeueDecision, hz, hp] at h

theorem mem_sessionYields {m : Option Str} {single : Bool} {r : ServiceRecord} :
    ∀ {infos : List ServiceInfo}, r ∈ sessionYields m single infos →
      ∃ info, info ∈ infos ∧ dequeueDecision m info = some r := by
  intro infos
  induction infos with
  | nil => intro h; simp [sessionYields] at h
  | cons info rest ih =>
    intro h
    simp only [sessionYields] at h
    cases hd : dequeueDecision m info with
    | none =>
      rw [hd] at h
      obtain ⟨i, hi, hdi⟩ := ih h
      exact ⟨i, List.mem_cons_of_mem _ hi, hdi⟩
    | some r2 =>
      rw [hd] at h
      rcases List.mem_cons.mp h with h1 | h2
      · exact ⟨info, List.mem_cons_self .., by rw [hd, h1]⟩
      · cases single with
        | true => simp at h2
        | false =>
          obtain ⟨i, hi, hdi⟩ := ih (by simpa using h2)
          exact ⟨i, List.mem_cons_of_mem _ hi, hdi⟩

theorem sessionYields_eq_nil {m : Option Str} {single : Bool} {infos : List ServiceInfo}
    (h : ∀ info ∈ infos, dequeueDecision m info = none) :
    sessionYields m single infos = [] := by
  induction infos with
  | nil => rfl
  | cons info rest ih =>
    simp only [sessionYields]
    rw [h info (List.mem_cons_self ..)]
    exact ih fun i hi => h i (List.mem_cons_of_mem _ hi)

theorem sessionYields_single_of_head {m : Option Str} {infos : List ServiceInfo}
    {r : ServiceRecord}
    (h : (sessionYields m true infos).head? = some r) :
    sessionYields m true infos = [r] := by
  induction infos with
  | nil => simp [sessionYields] at h
  | cons info rest ih =>
    simp only [sessionYields] at h ⊢
    cases hd : dequeueDecision m info with
    | none => rw [hd] at h; exact ih h
    | some r2 => rw [hd] at h; simp at h ⊢; exact h

theorem tryEvents_shape (m : Option Str) (single : Bool) :
    ∀ (fuel : Nat) (infos : List ServiceInfo),
      ∃ rs : List ServiceRecord, tryEvents m single infos fuel = rs.map SEvent.yielded := by
  intro fuel
  induction fuel with
  | zero => intro infos; exact ⟨[], by cases infos <;> rfl⟩
  | succ fuel ih =>
    intro infos
    cases infos with
    | nil => exact ⟨[], rfl⟩
    | cons info rest =>
      simp only [tryEvents]
      cases hd : dequeueDecision m info with
      | none => exact ih rest
      | some r =>
        cases single with
        | true => exact ⟨[r], rfl⟩
        | false =>
          obtain ⟨rs, hrs⟩ := ih rest
          exact ⟨r :: rs, by simp [hrs]⟩

theorem tryEvents_of_fuel {m : Option Str} {single : Bool} :
    ∀ {infos : List ServiceInfo} {fuel : Nat}, infos.length ≤ fuel →
      tryEvents m single infos fuel = (sessionYields m single infos).map SEvent.yielded := by
  intro infos
  induction infos with
  | nil => intro fuel _; cases fuel <;> rfl
  | cons info rest ih =>
    intro fuel hfuel
    cases fuel with
    | zero => exact absurd hfuel (by simp)
    | succ fuel =>
      simp only [tryEvents, sessionYields]
      cases hd : dequeueDecision m info with
      | none => exact ih (Nat.le_of_succ_le_succ (by simpa using hfuel))
      | some r =>
        cases single with
        | true => rfl
        | false => simp [ih (Nat.le_of_succ_le_succ (by simpa using hfuel))]

theorem sessionTrace_shape (m : Option Str) (single : Bool)
    (infos : List ServiceInfo) (fuel : Nat) :
    ∃ rs : List ServiceRecord,
      sessionTrace m single infos fuel = rs.map SEvent.yielded ++ [SEvent.closed] := by
  obtain ⟨rs, hrs⟩ := tryEvents_shape m single fuel infos
  exact ⟨rs, by rw [sessionTrace, hrs]⟩

theorem availInfos_none (events : List TimedEvent) :
    availInfos none events = queuedInfos events := rfl

theorem availInfos_failed_fetch (deadline : Option Nat) (t : Nat)
    (pre post : List TimedEvent) :
    availInfos deadline (pre ++ ⟨t, none⟩ :: post) = availInfos deadline (pre ++ post) := by
  cases deadline with
  | none =>
    simp [availInfos, beforeDeadline, queuedInfos, List.filterMap_append]
  | some tmax =>
    by_cases ht : t < tmax <;>
      simp [availInfos, beforeDeadline, queuedInfos, List.filter_append,
        List.filterMap_append, List.filter_cons, ht]

theorem dequeueDecision_placeholder {m : Option Str} {info : ServiceInfo}
    (hz : inet_ntoa info.address = zeroAddr) :
    dequeueDecision m info = none := by
  cases m <;> simp [dequeueDecision, hz]

theorem sessionYields_drop_mid {m : Option Str} {single : Bool} {info : ServiceInfo}
    (hz : dequeueDecision m info = none) :
    ∀ (pre post : List ServiceInfo),
      sessionYields m single (pre ++ info :: post) = sessionYields m single (pre ++ post) := by
  intro pre
  induction pre with
  | nil => intro post; simp only [List.nil_append, sessionYields, hz]
  | cons a pre ih =>
    intro post
    simp only [List.cons_append, sessionYields]
    cases hd : dequeueDecision m a with
    | none => exact ih post
    | some r => cases single <;> simp [ih post]

theorem sessionYields_placeholder_event {m : Option Str} {single : Bool}
    {info : ServiceInfo} (deadline : Option Nat) (t : Nat)
    (pre post : List TimedEvent)
    (hz : dequeueDecision m info = none) :
    sessionYields m single (availInfos deadline (pre ++ ⟨t, some info⟩ :: post))
      = sessionYields m single (availInfos deadline (pre ++ post)) := by
  cases deadline with
  | none =>
    have hav : availInfos none (pre ++ ⟨t, some info⟩ :: post)
        = queuedInfos pre ++ info :: queuedInfos post := by
      simp [availInfos, beforeDeadline, queuedInfos, List.filterMap_append]
    have hav2 : availInfos none (pre ++ post) = queuedInfos pre ++ queuedInfos post := by
      simp [availInfos, beforeDeadline, queuedInfos, List.filterMap_append]
    rw [hav, hav2, sessionYields_drop_mid hz]
  | some tmax =>
    by_cases ht : t < tmax
    · have hav : availInfos (some tmax) (pre ++ ⟨t, some info⟩ :: post)
          = queuedInfos (List.filter (fun e => e.time < tmax) pre)
            ++ info :: queuedInfos (List.filter (fun e => e.time < tmax) post) := by
        simp [availInfos, beforeDeadline, queuedInfos, List.filter_append,
          List.filter_cons, ht, List.filterMap_append]
      have hav2 : availInfos (some tmax) (pre ++ post)
          = queuedInfos (List.filter (fun e => e.time < tmax) pre)
            ++ queuedInfos (List.filter (fun e => e.time < tmax) post) := by
        simp [availInfos, beforeDeadline, queuedInfos, List.filter_append,
          List.filterMap_append]
      rw [hav, hav2, sessionYields_drop_mid hz]
    · have hav : availInfos (some tmax) (pre ++ ⟨t, some info⟩ :: post)
          = availInfos (some tmax) (pre ++ post) := by
        simp [availInfos, beforeDeadline, queuedInfos, List.filter_append,
          List.filter_cons, ht, List.filterMap_append]
      rw [hav]

/-! ## Claims -/

/-- Claim C2: a record yielded by a discovery session never has the
placeholder address `'0.0.0.0'`, for every filter (including none) and for
both single-match and all-matches mode. -/
theorem c2_no_placeholder_yielded (m : Option Str) (single : Bool)
    (infos : List ServiceInfo) (r : ServiceRecord)
    (h : r ∈ sessionYields m single infos) : r.addr ≠ zeroAddr := by
  obtain ⟨info, _, hd⟩ := mem_sessionYields h
  obtain ⟨hr, hz⟩ := dequeueDecision_eq_some hd
  rw [hr]
  exact hz

/-- Witness for C2 at a concrete session: one event with address
`192.168.0.10` is yielded and its address is not the placeholder. -/
theorem c2_no_placeholder_yielded_witness :
    (⟨"192.168.0.10".data, 80, "abc".data⟩ : ServiceRecord).addr ≠ zeroAddr :=
  c2_no_placeholder_yielded none false
    [⟨⟨192, 168, 0, 10⟩, 80, "abc.local.".data, "abc._brewblox._tcp.local.".data⟩]
    ⟨"192.168.0.10".data, 80, "abc".data⟩ (by decide)

/-- Claim C5: whatever the exit path of `_discover` — single-mode return on
the first match, consumer abandonment or timeout cancellation or an
exception after any number of dequeues (`fuel`), or draining the whole
queue — the trace is some yielded records followed by exactly one release
of the subscription, and nothing is yielded after the close. -/
theorem c5_release_on_every_exit (m : Option Str) (single : Bool)
    (infos : List ServiceInfo) (fuel : Nat) :
    ∃ rs : List ServiceRecord,
      sessionTrace m single infos fuel = rs.map SEvent.yielded ++ [SEvent.closed] :=
  sessionTrace_shape m single infos fuel

/-- Claim C4: `discover_all` consumed to its end always terminates normally
(the `TimeoutError` fired at the deadline is suppressed), returning exactly
the records yielded from events resolved before the deadline; events at or
after the deadline contribute nothing. -/
theorem c4_all_timeout_is_normal_end (id : Option Str) (dns_type : Str)
    (timeout_v : Nat) (events late : List TimedEvent)
    (hlate : ∀ e ∈ late, timeout_v ≤ e.time) :
    discover_all id dns_type timeout_v (events ++ late)
      = AllOutcome.done
          (sessionYields (matchOf id) false (availInfos (some timeout_v) events)) := by
  have hdrop : List.filter (fun e => e.time < timeout_v) late = [] := by
    rw [List.filter_eq_nil_iff]
    intro e he
    simpa using Nat.not_lt.mpr (hlate e he)
  simp [discover_all, discover_all_body, suppressTimeout, availInfos, beforeDeadline,
    queuedInfos, List.filter_append, hdrop]

/-- Witness for C4: a session with one pre-deadline matching event and one
post-deadline event ends normally with exactly the first record. -/
theorem c4_all_timeout_is_normal_end_witness :
    discover_all none "_brewblox._tcp.local.".data 5
        ([⟨1, some ⟨⟨192, 168, 0, 10⟩, 80, "abc.local.".data, "abc.-svc".data⟩⟩]
          ++ [⟨7, some ⟨⟨192, 168, 0, 11⟩, 80, "xyz.local.".data, "xyz.-svc".data⟩⟩])
      = AllOutcome.done
          (sessionYields (matchOf none) false
            (availInfos (some 5)
              [⟨1, some ⟨⟨192, 168, 0, 10⟩, 80, "abc.local.".data, "abc.-svc".data⟩⟩])) :=
  c4_all_timeout_is_normal_end none "_brewblox._tcp.local.".data 5
    [⟨1, some ⟨⟨192, 168, 0, 10⟩, 80, "abc.local.".data, "abc.-svc".data⟩⟩]
    [⟨7, some ⟨⟨192, 168, 0, 11⟩, 80, "xyz.local.".data, "xyz.-svc".data⟩⟩]
    (by decide)

/-- Claim C10: an empty-string identity is falsy in Python, so the session
computes no filter string and behaves exactly as with an absent identity,
in both entry points. -/
theorem c10_empty_id_means_no_filter (dns_type : Str) (timeout_one : Option Nat)
    (timeout_all : Nat) (events : List TimedEvent) :
    matchOf (some []) = matchOf none
    ∧ discover_one (some []) dns_type timeout_one events
        = discover_one none dns_type timeout_one events
    ∧ discover_all (some []) dns_type timeout_all events
        = discover_all none dns_type timeout_all events :=
  ⟨rfl, rfl, rfl⟩

/-- Claim C6: an "instance added" event whose info fetch fails queues
nothing (the fire-and-forget `add_service` task dies before `queue.put`),
and an event whose info resolves with the unusable placeholder address
`0.0.0.0` is dropped inside the session loop; in both cases no record is
produced for that event and the outcome of both `discover_one` and
`discover_all` is exactly as if the event had never happened — the failure
is never surfaced to the caller. -/
theorem c6_failed_or_placeholder_never_surfaced (id : Option Str) (dns_type : Str)
    (timeout_one : Option Nat) (timeout_all : Nat) (t : Nat)
    (pre post : List TimedEvent) (info : ServiceInfo)
    (hz : inet_ntoa info.address = zeroAddr) :
    queuedInfos (pre ++ ⟨t, none⟩ :: post) = queuedInfos (pre ++ post)
    ∧ discover_one id dns_type timeout_one (pre ++ ⟨t, none⟩ :: post)
        = discover_one id dns_type timeout_one (pre ++ post)
    ∧ discover_all id dns_type timeout_all (pre ++ ⟨t, none⟩ :: post)
        = discover_all id dns_type timeout_all (pre ++ post)
    ∧ dequeueDecision (matchOf id) info = none
    ∧ discover_one id dns_type timeout_one (pre ++ ⟨t, some info⟩ :: post)
        = discover_one id dns_type timeout_one (pre ++ post)
    ∧ discover_all id dns_type timeout_all (pre ++ ⟨t, some info⟩ :: post)
        = discover_all id dns_type timeout_all (pre ++ post) := by
  have hdz : dequeueDecision (matchOf id) info = none := dequeueDecision_placeholder hz
  refine ⟨?_, ?_, ?_, hdz, ?_, ?_⟩
  · simp [queuedInfos, List.filterMap_append]
  · simp only [discover_one, availInfos_failed_fetch]
  · simp only [discover_all, discover_all_body, availInfos_failed_fetch]
  · simp only [discover_one, sessionYields_placeholder_event timeout_one t pre post hdz]
  · simp only [discover_all, discover_all_body,
      sessionYields_placeholder_event (some timeout_all) t pre post hdz]

/-- Witness for C6: a failed fetch and a placeholder-address resolution of a
name that would otherwise match the filter both leave `discover_one` and
`discover_all` exactly as without the event. -/
theorem c6_failed_or_placeholder_never_surfaced_witness :
    queuedInfos [⟨0, none⟩,
        ⟨1, some ⟨⟨192, 168, 0, 11⟩, 80, "xyz.local.".data, "xyz.-svc".data⟩⟩]
      = queuedInfos [⟨1, some ⟨⟨192, 168, 0, 11⟩, 80, "xyz.local.".data, "xyz.-svc".data⟩⟩]
    ∧ discover_one (some "abc".data) "_brewblox._tcp.local.".data none
        [⟨0, none⟩, ⟨1, some ⟨⟨192, 168, 0, 11⟩, 80, "xyz.local.".data, "xyz.-svc".data⟩⟩]
      = discover_one (some "abc".data) "_brewblox._tcp.local.".data none
        [⟨1, some ⟨⟨192, 168, 0, 11⟩, 80, "xyz.local.".data, "xyz.-svc".data⟩⟩]
    ∧ discover_all (some "abc".data) "_brewblox._tcp.local.".data 5
        [⟨0, none⟩, ⟨1, some ⟨⟨192, 168, 0, 11⟩, 80, "xyz.local.".data, "xyz.-svc".data⟩⟩]
      = discover_all (some "abc".data) "_brewblox._tcp.local.".data 5
        [⟨1, some ⟨⟨192, 168, 0, 11⟩, 80, "xyz.local.".data, "xyz.-svc".data⟩⟩]
    ∧ dequeueDecision (matchOf (some "abc".data))
        ⟨⟨0, 0, 0, 0⟩, 80, "abc.local.".data, "abc.-svc".data⟩ = none
    ∧ discover_one (some "abc".data) "_brewblox._tcp.local.".data none
        [⟨0, some ⟨⟨0, 0, 0, 0⟩, 80, "abc.local.".data, "abc.-svc".data⟩⟩,
         ⟨1, some ⟨⟨192, 168, 0, 11⟩, 80, "xyz.local.".data, "xyz.-svc".data⟩⟩]
      = discover_one (some "abc".data) "_brewblox._tcp.local.".data none
        [⟨1, some ⟨⟨192, 168, 0, 11⟩, 80, "xyz.local.".data, "xyz.-svc".data⟩⟩]
    ∧ discover_all (some "abc".data) "_brewblox._tcp.local.".data 5
        [⟨0, some ⟨⟨0, 0, 0, 0⟩, 80, "abc.local.".data, "abc.-svc".data⟩⟩,
         ⟨1, some ⟨⟨192, 168, 0, 11⟩, 80, "xyz.local.".data, "xyz.-svc".data⟩⟩]
      = discover_all (some "abc".data) "_brewblox._tcp.local.".data 5
        [⟨1, some ⟨⟨192, 168, 0, 11⟩, 80, "xyz.local.".data, "xyz.-svc".data⟩⟩] :=
  c6_failed_or_placeholder_never_surfaced (some "abc".data) "_brewblox._tcp.local.".data
    none 5 0 []
    [⟨1, some ⟨⟨192, 168, 0, 11⟩, 80, "xyz.local.".data, "xyz.-svc".data⟩⟩]
    ⟨⟨0, 0, 0, 0⟩, 80, "abc.local.".data, "abc.-svc".data⟩ (by decide)

/-- Claim C9: `discover_one` with no timeout and no matching event never
completes: it stays parked on the queue instead of returning or raising. -/
theorem c9_no_timeout_no_match_blocks (id : Option Str) (dns_type : Str)
    (events : List TimedEvent)
    (h : ∀ info ∈ queuedInfos events, dequeueDecision (matchOf id) info = none) :
    discover_one id dns_type none events = OneOutcome.never := by
  have hnil : sessionYields (matchOf id) true (availInfos none events) = [] :=
    sessionYields_eq_nil (by rw [availInfos_none]; exact h)
  simp [discover_one, hnil]

/-- Witness for C9: an identity filter that matches no event (one simulator
event and one other device) leaves `discover_one` parked forever. -/
theorem c9_no_timeout_no_match_blocks_witness :
    discover_one (some "abc".data) "_brewblox._tcp.local.".data none
        [⟨0, some ⟨⟨0, 0, 0, 0⟩, 80, "abc.local.".data, "abc.-svc".data⟩⟩,
         ⟨1, some ⟨⟨192, 168, 0, 11⟩, 80, "xyz.local.".data, "xyz.-svc".data⟩⟩]
      = OneOutcome.never :=
  c9_no_timeout_no_match_blocks (some "abc".data) "_brewblox._tcp.local.".data
    [⟨0, some ⟨⟨0, 0, 0, 0⟩, 80, "abc.local.".data, "abc.-svc".data⟩⟩,
     ⟨1, some ⟨⟨192, 168, 0, 11⟩, 80, "xyz.local.".data, "xyz.-svc".data⟩⟩]
    (by decide)

/-- Claim C1: for a dequeued record surviving the placeholder discard (which
C2 shows happens before the filter): with no filter identity it is always
yielded; with a concrete identity it is yielded iff its own identity (the
server name with the domain suffix stripped) equals the filter identity
case-insensitively — an exact match, never a prefix or substring match.
The suffix hypothesis states that the server name is fully qualified,
which is what makes "stripping the domain suffix" the identity. -/
theorem c1_identity_filter_exact (id : Str) (info : ServiceInfo)
    (haddr : inet_ntoa info.address ≠ zeroAddr)
    (hsuf : ∃ pre, lower info.server = pre ++ localSuffix) :
    (dequeueDecision (matchOf none) info).isSome = true
    ∧ (id ≠ [] →
        ((dequeueDecision (matchOf (some id)) info).isSome = true
          ↔ lower (serialOf info) = lower id)) := by
  constructor
  · simp [dequeueDecision, matchOf, haddr]
  · intro hid
    obtain ⟨pre, hpre⟩ := hsuf
    have hmatch : matchOf (some id) = some (lower id ++ localSuffix) := by
      simp [matchOf, hid, lower_append, lower_localSuffix]
    have hser : lower (serialOf info) = pre := by
      rw [lower_serialOf, hpre, pyDropRight_append _ _ localSuffix_length]
    rw [hmatch, hser]
    by_cases heq : lower info.server = lower id ++ localSuffix
    · have : pre = lower id := List.append_cancel_right (hpre ▸ heq)
      simp [dequeueDecision, haddr, heq, this]
    · have : pre ≠ lower id := fun hcontra => heq (by rw [hpre, hcontra])
      simp [dequeueDecision, haddr, heq, this]

/-- Witness for C1 at a concrete dequeued info (`Spark-One.local.`, address
`192.168.0.10`) and filter identity `spark-one`. -/
theorem c1_identity_filter_exact_witness :
    (dequeueDecision (matchOf none)
        ⟨⟨192, 168, 0, 10⟩, 80, "Spark-One.local.".data, "Spark-One.-svc".data⟩).isSome = true
    ∧ ("spark-one".data ≠ ([] : Str) →
        ((dequeueDecision (matchOf (some "spark-one".data))
            ⟨⟨192, 168, 0, 10⟩, 80, "Spark-One.local.".data, "Spark-One.-svc".data⟩).isSome = true
          ↔ lower (serialOf
                ⟨⟨192, 168, 0, 10⟩, 80, "Spark-One.local.".data, "Spark-One.-svc".data⟩)
              = lower "spark-one".data)) :=
  c1_identity_filter_exact "spark-one".data
    ⟨⟨192, 168, 0, 10⟩, 80, "Spark-One.local.".data, "Spark-One.-svc".data⟩
    (by decide) ⟨"spark-one".data, by decide⟩

/-- Claim C8: every yielded record originates from a dequeued info, and
whenever that info's fully-qualified server name ends in the fixed suffix
`'.local.'`, the record's identity is that name with the suffix removed
verbatim. -/
theorem c8_identity_is_name_minus_suffix (m : Option Str) (single : Bool)
    (infos : List ServiceInfo) (r : ServiceRecord)
    (h : r ∈ sessionYields m single infos) :
    ∃ info, info ∈ infos ∧ dequeueDecision m info = some r
      ∧ ∀ pre, info.server = pre ++ localSuffix → r.serial = pre := by
  obtain ⟨info, hmem, hd⟩ := mem_sessionYields h
  refine ⟨info, hmem, hd, ?_⟩
  intro pre hpre
  obtain ⟨hr, -⟩ := dequeueDecision_eq_some hd
  rw [hr]
  show serialOf info = pre
  rw [serialOf, hpre, pyDropRight_append _ _ localSuffix_length]

/-- Witness for C8: the record yielded for server name `abc123.local.` has
identity `abc123`. -/
theorem c8_identity_is_name_minus_suffix_witness :
    ∃ info, info ∈ [(⟨⟨192, 168, 0, 10⟩, 80, "abc123.local.".data, "abc123.-svc".data⟩ :
          ServiceInfo)]
      ∧ dequeueDecision none info
          = some ⟨"192.168.0.10".data, 80, "abc123".data⟩
      ∧ ∀ pre, info.server = pre ++ localSuffix
          → ("abc123".data : Str) = pre :=
  c8_identity_is_name_minus_suffix none true
    [⟨⟨192, 168, 0, 10⟩, 80, "abc123.local.".data, "abc123.-svc".data⟩]
    ⟨"192.168.0.10".data, 80, "abc123".data⟩ (by decide)

/-- Claim C3: when a timeout is given and no matching record arrives before
it elapses, `discover_one` fails with the propagated `TimeoutError` (it does
not return a record), and the session trace still ends with the release of
the browse subscription. -/
theorem c3_timeout_propagates (id : Option Str) (dns_type : Str) (tmax : Nat)
    (events : List TimedEvent)
    (h : ∀ info ∈ availInfos (some tmax) events,
      dequeueDecision (matchOf id) info = none) :
    discover_one id dns_type (some tmax) events = OneOutcome.timedOut
    ∧ (sessionTrace (matchOf id) true (availInfos (some tmax) events)
        (availInfos (some tmax) events).length).getLast? = some SEvent.closed := by
  have hnil : sessionYields (matchOf id) true (availInfos (some tmax) events) = [] :=
    sessionYields_eq_nil h
  constructor
  · simp [discover_one, hnil]
  · obtain ⟨rs, hshape⟩ :=
      sessionTrace_shape (matchOf id) true (availInfos (some tmax) events)
        (availInfos (some tmax) events).length
    rw [hshape, List.getLast?_concat]

/-- Witness for C3: a filter identity matching neither queued event makes
`discover_one` with a 5 second timeout raise, with the subscription closed. -/
theorem c3_timeout_propagates_witness :
    discover_one (some "abc".data) "_brewblox._tcp.local.".data (some 5)
        [⟨1, some ⟨⟨192, 168, 0, 11⟩, 80, "xyz.local.".data, "xyz.-svc".data⟩⟩]
      = OneOutcome.timedOut
    ∧ (sessionTrace (matchOf (some "abc".data)) true
        (availInfos (some 5)
          [⟨1, some ⟨⟨192, 168, 0, 11⟩, 80, "xyz.local.".data, "xyz.-svc".data⟩⟩])
        (availInfos (some 5)
          [⟨1, some ⟨⟨192, 168, 0, 11⟩, 80, "xyz.local.".data, "xyz.-svc".data⟩⟩]).length).getLast?
      = some SEvent.closed :=
  c3_timeout_propagates (some "abc".data) "_brewblox._tcp.local.".data 5
    [⟨1, some ⟨⟨192, 168, 0, 11⟩, 80, "xyz.local.".data, "xyz.-svc".data⟩⟩]
    (by decide)

/-- Claim C7: when a matching record is dequeued before any time bound
elapses, `discover_one` returns exactly that first match as a single record,
the session yields nothing further, and the trace closes the subscription
immediately after that one yield. -/
theorem c7_first_match_returned (id : Option Str) (dns_type : Str)
    (timeout_v : Option Nat) (events : List TimedEvent) (r : ServiceRecord)
    (h : (sessionYields (matchOf id) true (availInfos timeout_v events)).head? = some r) :
    discover_one id dns_type timeout_v events = OneOutcome.ok r
    ∧ sessionYields (matchOf id) true (availInfos timeout_v events) = [r]
    ∧ sessionTrace (matchOf id) true (availInfos timeout_v events)
        (availInfos timeout_v events).length
      = [SEvent.yielded r, SEvent.closed] := by
  have h1 := sessionYields_single_of_head h
  refine ⟨by simp [discover_one, h], h1, ?_⟩
  rw [sessionTrace, tryEvents_of_fuel (Nat.le_refl _), h1]
  rfl

/-- Witness for C7: with two queued events, the first matching the filter,
`discover_one` without a timeout returns that record and the session closes
right after the single yield. -/
theorem c7_first_match_returned_witness :
    discover_one (some "abc".data) "_brewblox._tcp.local.".data none
        [⟨0, some ⟨⟨192, 168, 0, 10⟩, 80, "abc.local.".data, "abc.-svc".data⟩⟩,
         ⟨1, some ⟨⟨192, 168, 0, 11⟩, 80, "xyz.local.".data, "xyz.-svc".data⟩⟩]
      = OneOutcome.ok ⟨"192.168.0.10".data, 80, "abc".data⟩
    ∧ sessionYields (matchOf (some "abc".data)) true
        (availInfos none
          [⟨0, some ⟨⟨192, 168, 0, 10⟩, 80, "abc.local.".data, "abc.-svc".data⟩⟩,
           ⟨1, some ⟨⟨192, 168, 0, 11⟩, 80, "xyz.local.".data, "xyz.-svc".data⟩⟩])
      = [⟨"192.168.0.10".data, 80, "abc".data⟩]
    ∧ sessionTrace (matchOf (some "abc".data)) true
        (availInfos none
          [⟨0, some ⟨⟨192, 168, 0, 10⟩, 80, "abc.local.".data, "abc.-svc".data⟩⟩,
           ⟨1, some ⟨⟨192, 168, 0, 11⟩, 80, "xyz.local.".data, "xyz.-svc".data⟩⟩])
        (availInfos none
          [⟨0, some ⟨⟨192, 168, 0, 10⟩, 80, "abc.local.".data, "abc.-svc".data⟩⟩,
           ⟨1, some ⟨⟨192, 168, 0, 11⟩, 80, "xyz.local.".data, "xyz.-svc".data⟩⟩]).length
      = [SEvent.yielded ⟨"192.168.0.10".data, 80, "abc".data⟩, SEvent.closed] :=
  c7_first_match_returned (some "abc".data) "_brewblox._tcp.local.".data none
    [⟨0, some ⟨⟨192, 168, 0, 10⟩, 80, "abc.local.".data, "abc.-svc".data⟩⟩,
     ⟨1, some ⟨⟨192, 168, 0, 11⟩, 80, "xyz.local.".data, "xyz.-svc".data⟩⟩]
    ⟨"192.168.0.10".data, 80, "abc".data⟩ (by decide)

end BrewbloxMdns
